import Mathlib

/-!
Verification development for the linker core of the orogene package manager
(crates/node-maintainer/src/linkers/mod.rs).

The Rust code is shallowly embedded: filesystem, process and library calls
that live outside this file are represented by explicit oracle environments
(a `World` for manifest reads / script spawning / script execution, and
small per-function environments for the reflink probe and the bin linker).
Pure control flow — the sequencing in `Linker::rebuild`, the per-node
branching in `Linker::run_scripts`, the error handling in `supports_reflink`
and `link_bin` — is translated statement by statement from the source.
`try_for_each_concurrent` is modelled as a short-circuiting fold over the
snapshot of the pending set: an error stops the processing of the remaining
items and is propagated, which is the abort behaviour of the combinator.
-/

namespace Orogene

/-- Error type mirroring the `NodeMaintainerError` variants reachable from
linkers/mod.rs: manifest-read failure (carries the path and the underlying
cause), generic IO failure, and script failure (spawn / execution). -/
inductive NMError : Type where
  | buildManifestReadError (path : String) (cause : String)
  | ioError (msg : String)
  | scriptError (msg : String)
deriving Repr, DecidableEq

/-- The subset of a package manifest needed at rebuild time: the
lifecycle-event → script-command map (`BuildManifest.scripts`). -/
structure BuildManifest : Type where
  scripts : List (String × String)
deriving Repr, DecidableEq

/-- `scripts.contains_key(event)` on the embedded manifest map. -/
def BuildManifest.hasScript (m : BuildManifest) (event : String) : Bool :=
  m.scripts.any (fun kv => kv.1 == event)

instance {ε α : Type} [DecidableEq ε] [DecidableEq α] :
    DecidableEq (Except ε α) := fun a b =>
  match a, b with
  | .ok x, .ok y =>
    if h : x = y then isTrue (by rw [h]) else isFalse (by simp [h])
  | .ok _, .error _ => isFalse (by simp)
  | .error _, .ok _ => isFalse (by simp)
  | .error x, .error y =>
    if h : x = y then isTrue (by rw [h]) else isFalse (by simp [h])

/-- The dependency graph as consumed by the linker: a designated root index,
the `is_optional` flag per node, and the package name per node
(`graph[idx].package.name()`). The graph is read-only for the linker. -/
structure Graph : Type where
  root : Nat
  isOptional : Nat → Bool
  packageName : Nat → String

/-- Outcomes of the external operations `run_scripts` performs, keyed the way
the code keys them: manifest reads by the path handed to
`BuildManifest::from_path`, spawning by (package dir, workspace path, event),
execution (the `try_join!` of the stdout drain, the stderr drain and
`script.wait()`) by (package dir, event), and the output lines produced by a
script by (package dir, event). -/
structure World : Type where
  readManifest : String → Except String BuildManifest
  spawnScript : String → String → String → Except String Unit
  scriptExec : String → String → Except NMError Unit
  scriptLines : String → String → List String

/-- `LinkerOptions` from linkers/mod.rs. The four observer callbacks are
embedded as presence flags (`Option<_>.is_some()`): the callbacks return unit
and the code never inspects anything they produce, so their only embeddable
content is whether they are configured and what they are fed (recorded in the
callback log of a run). -/
structure LinkerOptions : Type where
  concurrency : Nat
  actualTree : Bool
  scriptConcurrency : Nat
  cache : Option String
  preferCopy : Bool
  validate : Bool
  root : String
  onPruneProgress : Bool
  onExtractProgress : Bool
  onScriptStart : Bool
  onScriptLine : Bool

/-- The state shared by the Isolated and Hoisted linker variants as used by
linkers/mod.rs: the Pending-Rebuild Set (`pending_rebuild`, embedded as the
list of node indices in iteration order), the options, and the strategy's
`package_dir(graph, idx)` giving (package dir, workspace path).

Modelled from the spec: the bodies of `IsolatedLinker` / `HoistedLinker`
(hoisted.rs, isolated.rs) are not under src/, so their `prune`, `extract` and
`link_bins` are represented only by their result values (`pruneResult`,
`extractResult`, `linkBinsResult`), which is all mod.rs consumes of them. -/
structure LinkerState : Type where
  pendingRebuild : List Nat
  opts : LinkerOptions
  pkgDirOf : Nat → String × String
  pruneResult : Except NMError Nat
  extractResult : Except NMError Nat
  linkBinsResult : Except NMError Nat

/-- The `Linker` enum: Isolated, Hoisted, and the inert Null variant. -/
inductive Linker : Type where
  | isolated (st : LinkerState)
  | hoisted (st : LinkerState)
  | null

/-- `Linker::prune`: dispatch to the strategy; `Null => Ok(0)`. -/
def Linker.prune : Linker → Graph → Except NMError Nat
  | .isolated st, _ => st.pruneResult
  | .hoisted st, _ => st.pruneResult
  | .null, _ => .ok 0

/-- `Linker::extract`: dispatch to the strategy; `Null => Ok(0)`. -/
def Linker.extract : Linker → Graph → Except NMError Nat
  | .isolated st, _ => st.extractResult
  | .hoisted st, _ => st.extractResult
  | .null, _ => .ok 0

/-- `Linker::link_bins`: dispatch to the strategy; `Null => Ok(0)`. -/
def Linker.linkBins : Linker → Graph → Except NMError Nat
  | .isolated st, _ => st.linkBinsResult
  | .hoisted st, _ => st.linkBinsResult
  | .null, _ => .ok 0

/-- The Pending-Rebuild Set currently held by a linker (empty for Null). -/
def Linker.pending : Linker → List Nat
  | .isolated st => st.pendingRebuild
  | .hoisted st => st.pendingRebuild
  | .null => []

/-- The (package dir, workspace path) pair `run_scripts` computes for a node:
the root node maps to the install root itself, every other node goes through
the strategy's `package_dir`. -/
def pkgDirIn (g : Graph) (opts : LinkerOptions) (pkgDirOf : Nat → String × String)
    (idx : Nat) : String × String :=
  if idx = g.root then (opts.root, opts.root) else pkgDirOf idx

/-- What one pass of `run_scripts` produced: the manifest paths it read, the
(node, event) script spawns it attempted, the callback invocations
(script-start and script-line, present only when configured), and the
`Result` value. -/
structure RunOut : Type where
  reads : List String
  spawns : List (Nat × String)
  cbLog : List String
  result : Except NMError Unit
deriving Repr, DecidableEq

/-- The body of the `try_for_each_concurrent` closure in
`Linker::run_scripts`, for one pending node `idx`:
resolve the package dir (root node → install root), read the Build Manifest
(a failure is wrapped in `BuildManifestReadError` and propagated with `?`,
before any optionality check), and if the manifest declares a script for the
event, invoke the start callback, spawn the script and await the join of the
two drain tasks and the exit wait — where a spawn or execution failure of an
optional node is logged and swallowed (`return Ok(())`), and of a
non-optional node is propagated. -/
def runScriptNode (w : World) (g : Graph) (opts : LinkerOptions)
    (pkgDirOf : Nat → String × String) (event : String) (idx : Nat) : RunOut :=
  let pdw := pkgDirIn g opts pkgDirOf idx
  let pkgDir := pdw.1
  let isOpt := g.isOptional idx
  let maniPath := pkgDir ++ "/package.json"
  match w.readManifest maniPath with
  | .error e => ⟨[maniPath], [], [], .error (.buildManifestReadError maniPath e)⟩
  | .ok mani =>
    if mani.hasScript event then
      let startLog :=
        if opts.onScriptStart then
          ["start:" ++ g.packageName idx ++ ":" ++ event]
        else []
      match w.spawnScript pkgDir pdw.2 event with
      | .error e =>
        if isOpt then ⟨[maniPath], [(idx, event)], startLog, .ok ()⟩
        else ⟨[maniPath], [(idx, event)], startLog, .error (.scriptError e)⟩
      | .ok _ =>
        let lineLog :=
          if opts.onScriptLine then w.scriptLines pkgDir event else []
        match w.scriptExec pkgDir event with
        | .error e =>
          if isOpt then ⟨[maniPath], [(idx, event)], startLog ++ lineLog, .ok ()⟩
          else ⟨[maniPath], [(idx, event)], startLog ++ lineLog, .error e⟩
        | .ok _ => ⟨[maniPath], [(idx, event)], startLog ++ lineLog, .ok ()⟩
    else ⟨[maniPath], [], [], .ok ()⟩

/-- `try_for_each_concurrent` over the snapshot of the pending set: process
the nodes, accumulating the trace; an error aborts the remaining nodes and is
propagated. -/
def runNodes (w : World) (g : Graph) (opts : LinkerOptions)
    (pkgDirOf : Nat → String × String) (event : String) : List Nat → RunOut
  | [] => ⟨[], [], [], .ok ()⟩
  | idx :: rest =>
    let o := runScriptNode w g opts pkgDirOf event idx
    match o.result with
    | .error e => ⟨o.reads, o.spawns, o.cbLog, .error e⟩
    | .ok _ =>
      let o' := runNodes w g opts pkgDirOf event rest
      ⟨o.reads ++ o'.reads, o.spawns ++ o'.spawns, o.cbLog ++ o'.cbLog, o'.result⟩

/-- `Linker::run_scripts(graph, event)`: Null returns `Ok(())` immediately;
Isolated/Hoisted iterate the Pending-Rebuild Set under its lock and run the
per-node body. The call reads the set but never writes it, so the linker
handed back (the post-call state of `&self`) is the one passed in. -/
def runScriptsS (l : Linker) (w : World) (g : Graph) (event : String) :
    RunOut × Linker :=
  match l with
  | .null => (⟨[], [], [], .ok ()⟩, .null)
  | .isolated st =>
    (runNodes w g st.opts st.pkgDirOf event st.pendingRebuild, .isolated st)
  | .hoisted st =>
    (runNodes w g st.opts st.pkgDirOf event st.pendingRebuild, .hoisted st)

/-- One step of the rebuild sequence: a lifecycle-event script pass or the
bin-linking step. -/
inductive RStep : Type where
  | scriptsStep (event : String)
  | binsStep
deriving Repr, DecidableEq

/-- What `Linker::rebuild` did: the steps it executed in order, the combined
script-pass traces, and its `Result`. -/
structure RebuildOut : Type where
  steps : List RStep
  reads : List String
  spawns : List (Nat × String)
  cbLog : List String
  result : Except NMError Unit
deriving Repr, DecidableEq

/-- `Linker::rebuild(graph, ignore_scripts)`: if `ignore_scripts` is false,
`run_scripts("preinstall")?`; then `link_bins(graph)?`; if `ignore_scripts`
is false, `run_scripts("install")?` then `run_scripts("postinstall")?`.
Each `?` aborts the remaining steps and propagates the error. -/
def rebuildT (l : Linker) (w : World) (g : Graph) (ignoreScripts : Bool) :
    RebuildOut :=
  if ignoreScripts then
    match l.linkBins g with
    | .error e => ⟨[.binsStep], [], [], [], .error e⟩
    | .ok _ => ⟨[.binsStep], [], [], [], .ok ()⟩
  else
    let pre := (runScriptsS l w g "preinstall").1
    match pre.result with
    | .error e =>
      ⟨[.scriptsStep "preinstall"], pre.reads, pre.spawns, pre.cbLog, .error e⟩
    | .ok _ =>
      match l.linkBins g with
      | .error e =>
        ⟨[.scriptsStep "preinstall", .binsStep], pre.reads, pre.spawns,
          pre.cbLog, .error e⟩
      | .ok _ =>
        let inst := (runScriptsS l w g "install").1
        match inst.result with
        | .error e =>
          ⟨[.scriptsStep "preinstall", .binsStep, .scriptsStep "install"],
            pre.reads ++ inst.reads, pre.spawns ++ inst.spawns,
            pre.cbLog ++ inst.cbLog, .error e⟩
        | .ok _ =>
          let post := (runScriptsS l w g "postinstall").1
          ⟨[.scriptsStep "preinstall", .binsStep, .scriptsStep "install",
              .scriptsStep "postinstall"],
            pre.reads ++ inst.reads ++ post.reads,
            pre.spawns ++ inst.spawns ++ post.spawns,
            pre.cbLog ++ inst.cbLog ++ post.cbLog, post.result⟩

/-- Specification-side sequencer (this definition follows the spec's words,
for comparison with `rebuildT`): run the given steps in strict sequence; a
step's failure aborts the remaining steps and propagates the error. -/
def runStepSeq (f : RStep → Except NMError Unit) : List RStep →
    List RStep × Except NMError Unit
  | [] => ([], .ok ())
  | s :: rest =>
    match f s with
    | .error e => ([s], .error e)
    | .ok _ =>
      let r := runStepSeq f rest
      (s :: r.1, r.2)

/-- Specification-side step list (follows the spec's words): if
`ignore_scripts` is false the sequence is preinstall, bins, install,
postinstall; if true, only the bins step. -/
def specSteps (ignoreScripts : Bool) : List RStep :=
  if ignoreScripts then [.binsStep]
  else [.scriptsStep "preinstall", .binsStep, .scriptsStep "install",
    .scriptsStep "postinstall"]

/-- The result a single rebuild step yields for a given linker, world and
graph (script passes via `run_scripts`, the bins step via `link_bins` with
its count discarded). -/
def stepResult (l : Linker) (w : World) (g : Graph) : RStep →
    Except NMError Unit
  | .scriptsStep e => (runScriptsS l w g e).1.result
  | .binsStep =>
    match l.linkBins g with
    | .error e => .error e
    | .ok _ => .ok ()

/-- Outcomes of the external steps `supports_reflink` performs:
`tempfile::NamedTempFile::new_in(src_dir)`, `std::fs::write(&temp, "a")`,
`tempfile::TempDir::new_in(dest_dir)` and
`reflink::reflink(temp.path(), tempdir.path().join("b"))`. -/
structure ReflinkEnv : Type where
  namedTempfileNew : Except String Unit
  writeTempfile : Except String Unit
  tempdirNew : Except String Unit
  reflinkClone : Except String Unit

/-- `supports_reflink(src_dir, dest_dir)`: each failing step logs and returns
`false`; the clone result is mapped to `true` on success and, via
`unwrap_or(false)`, `false` on failure. The function's type is `bool`: no
error can escape it. -/
def supports_reflink (env : ReflinkEnv) : Bool :=
  match env.namedTempfileNew with
  | .error _ => false
  | .ok _ =>
    match env.writeTempfile with
    | .error _ => false
    | .ok _ =>
      match env.tempdirNew with
      | .error _ => false
      | .ok _ =>
        match env.reflinkClone with
        | .ok _ => true
        | .error _ => false

/-- Whether an external step succeeded. -/
def okStep (r : Except String Unit) : Bool :=
  match r with
  | .ok _ => true
  | .error _ => false

/-- How a call to the embedded `link_bin` can end: normal success, a typed
error returned to the caller, or abnormal termination (a Rust panic from
`Option::unwrap` on `None`). -/
inductive BinOutcome : Type where
  | ok
  | err (e : NMError)
  | panicked
deriving Repr, DecidableEq

/-- The filesystem state `link_bin` touches: permission bits per path and the
created symlinks (link path, link target). -/
structure FsState : Type where
  perms : List (String × Nat)
  symlinks : List (String × String)
deriving Repr, DecidableEq

/-- Association-list update used to record a permission-bit change. -/
def setAssoc : List (String × Nat) → String → Nat → List (String × Nat)
  | [], k, v => [(k, v)]
  | (k', v') :: rest, k, v =>
    if k' = k then (k, v) :: rest else (k', v') :: setAssoc rest k v

/-- Association-list lookup. -/
def lookupAssoc : List (String × Nat) → String → Option Nat
  | [], _ => none
  | (k', v') :: rest, k => if k' = k then some v' else lookupAssoc rest k

/-- Outcomes of the external operations in the non-Windows branch of
`link_bin`: `from.metadata()`, `std::fs::set_permissions(from, perms)`,
`std::os::unix::fs::symlink(relative, to)` (whose failure includes the
target already existing), plus the pure path functions `Path::parent`
(`None` for a root or empty path) and `pathdiff::diff_paths` (`None` when no
relative path between the two arguments can be computed). -/
structure LinkBinEnv : Type where
  metadataResult : Except String Unit
  setPermsResult : Except String Unit
  symlinkResult : Except String Unit
  parentOf : String → Option String
  diffPaths : String → String → Option String

/-- `link_bin(from, to)`, non-Windows branch: read the source metadata (`?`),
set the source's permission bits to `0o755` (`?`; the bits change exactly
when this succeeds), compute `to.parent().unwrap()` and
`pathdiff::diff_paths(from, parent).unwrap()` — each `unwrap` panics on
`None` — then create the symlink at `to` pointing at the relative path
(`?`). -/
def link_bin (env : LinkBinEnv) (fromPath toPath : String) (st : FsState) :
    BinOutcome × FsState :=
  match env.metadataResult with
  | .error e => (.err (.ioError e), st)
  | .ok _ =>
    match env.setPermsResult with
    | .error e => (.err (.ioError e), st)
    | .ok _ =>
      let st1 : FsState := { st with perms := setAssoc st.perms fromPath 0o755 }
      match env.parentOf toPath with
      | none => (.panicked, st1)
      | some par =>
        match env.diffPaths fromPath par with
        | none => (.panicked, st1)
        | some rel =>
          match env.symlinkResult with
          | .error e => (.err (.ioError e), st1)
          | .ok _ =>
            (.ok, { st1 with symlinks := (toPath, rel) :: st1.symlinks })

/-- Replace the four observer-callback flags of a `LinkerOptions`. -/
def withCallbacks (o : LinkerOptions) (a b c d : Bool) : LinkerOptions :=
  { o with
    onPruneProgress := a
    onExtractProgress := b
    onScriptStart := c
    onScriptLine := d }

/-- Replace the four observer-callback flags of a linker's options. -/
def setCallbacks : Linker → Bool → Bool → Bool → Bool → Linker
  | .isolated st, a, b, c, d =>
    .isolated { st with opts := withCallbacks st.opts a b c d }
  | .hoisted st, a, b, c, d =>
    .hoisted { st with opts := withCallbacks st.opts a b c d }
  | .null, _, _, _, _ => .null

/-- The manifest paths a full pass over the current Pending-Rebuild Set
would read, in order. -/
def Linker.maniPaths (l : Linker) (g : Graph) : List String :=
  match l with
  | .null => []
  | .isolated st =>
    st.pendingRebuild.map
      (fun i => (pkgDirIn g st.opts st.pkgDirOf i).1 ++ "/package.json")
  | .hoisted st =>
    st.pendingRebuild.map
      (fun i => (pkgDirIn g st.opts st.pkgDirOf i).1 ++ "/package.json")

/-- Looking up the key just written by `setAssoc` yields the written value. -/
theorem lookupAssoc_setAssoc (m : List (String × Nat)) (k : String) (v : Nat) :
    lookupAssoc (setAssoc m k v) k = some v := by
  induction m with
  | nil => simp [setAssoc, lookupAssoc]
  | cons kv rest ih =>
    obtain ⟨k', v'⟩ := kv
    by_cases h : k' = k
    · simp [setAssoc, h, lookupAssoc]
    · simp [setAssoc, h, lookupAssoc, ih]

/-- Processing one node always reads exactly its manifest path. -/
theorem runScriptNode_reads (w : World) (g : Graph) (opts : LinkerOptions)
    (pd : Nat → String × String) (event : String) (idx : Nat) :
    (runScriptNode w g opts pd event idx).reads =
      [(pkgDirIn g opts pd idx).1 ++ "/package.json"] := by
  cases h : w.readManifest ((pkgDirIn g opts pd idx).1 ++ "/package.json") with
  | error e => simp [runScriptNode, h]
  | ok m =>
    cases hd : m.hasScript event with
    | false => simp [runScriptNode, h, hd]
    | true =>
      cases hs : w.spawnScript (pkgDirIn g opts pd idx).1
          (pkgDirIn g opts pd idx).2 event with
      | error e =>
        cases ho : g.isOptional idx <;> simp [runScriptNode, h, hd, hs, ho]
      | ok _ =>
        cases hx : w.scriptExec (pkgDirIn g opts pd idx).1 event with
        | error e =>
          cases ho : g.isOptional idx <;> simp [runScriptNode, h, hd, hs, hx, ho]
        | ok _ => simp [runScriptNode, h, hd, hs, hx]

/-- C5: for every pair of directories (every outcome environment),
supports_reflink returns true exactly when the temp-file creation, the
one-byte write, the temp-dir creation and the copy-on-write clone all
succeed; any failure at any step yields false, and the Bool return type
means no error is ever propagated to the caller. -/
theorem supports_reflink_true_iff (env : ReflinkEnv) :
    supports_reflink env =
      (okStep env.namedTempfileNew && okStep env.writeTempfile &&
        okStep env.tempdirNew && okStep env.reflinkClone) := by
  unfold supports_reflink okStep
  cases env.namedTempfileNew <;> cases env.writeTempfile <;>
    cases env.tempdirNew <;> cases env.reflinkClone <;> rfl

/-- C8: every operation of the Null linker variant is a successful no-op:
prune, extract and link_bins return Ok(0), run_scripts returns Ok(()) at
once (reading no manifest, spawning no script, invoking no callback, and
leaving the linker untouched), and rebuild returns Ok(()) with no manifest
reads, no spawns and no callback invocations, for either value of
ignore_scripts. -/
theorem null_linker_noop (w : World) (g : Graph) (event : String)
    (ig : Bool) :
    Linker.prune .null g = .ok 0 ∧
    Linker.extract .null g = .ok 0 ∧
    Linker.linkBins .null g = .ok 0 ∧
    runScriptsS .null w g event = (⟨[], [], [], .ok ()⟩, .null) ∧
    (rebuildT .null w g ig).result = .ok () ∧
    (rebuildT .null w g ig).reads = [] ∧
    (rebuildT .null w g ig).spawns = [] ∧
    (rebuildT .null w g ig).cbLog = [] := by
  cases ig <;> exact ⟨rfl, rfl, rfl, rfl, rfl, rfl, rfl, rfl⟩

/-- C1: rebuild(graph, ignore_scripts) executes the strict sequence given by
the spec-side step list — preinstall scripts (unless ignore_scripts), bin
linking (always), install then postinstall scripts (unless ignore_scripts) —
with the failure of any step aborting all remaining steps and propagating
that error: the executed steps and the final result coincide with running
the spec-side step list through the spec-side strict sequencer. -/
theorem rebuild_strict_sequence (l : Linker) (w : World) (g : Graph)
    (ig : Bool) :
    (rebuildT l w g ig).steps =
      (runStepSeq (stepResult l w g) (specSteps ig)).1 ∧
    (rebuildT l w g ig).result =
      (runStepSeq (stepResult l w g) (specSteps ig)).2 := by
  cases ig with
  | true =>
    cases hb : l.linkBins g <;>
      simp [rebuildT, specSteps, runStepSeq, stepResult, hb]
  | false =>
    cases hp : (runScriptsS l w g "preinstall").1.result with
    | error e => simp [rebuildT, specSteps, runStepSeq, stepResult, hp]
    | ok _ =>
      cases hb : l.linkBins g with
      | error e => simp [rebuildT, specSteps, runStepSeq, stepResult, hp, hb]
      | ok _ =>
        cases hi : (runScriptsS l w g "install").1.result with
        | error e =>
          simp [rebuildT, specSteps, runStepSeq, stepResult, hp, hb, hi]
        | ok _ =>
          cases hpo : (runScriptsS l w g "postinstall").1.result <;>
            simp [rebuildT, specSteps, runStepSeq, stepResult, hp, hb, hi, hpo]

/-- C2: for a pending node that declares a script for the event: if the node
is optional, a spawn or execution failure is swallowed and the node is
treated as successful, so the remaining nodes continue (the pass result is
the result of the rest); if the node is not optional, a spawn failure or an
execution failure aborts the remaining work for this event — the pass stops
with that error, having spawned and read nothing beyond this node. -/
theorem run_scripts_optional_isolation (w : World) (g : Graph)
    (opts : LinkerOptions) (pd : Nat → String × String) (event : String)
    (idx : Nat) (rest : List Nat) (m : BuildManifest)
    (hm : w.readManifest ((pkgDirIn g opts pd idx).1 ++ "/package.json") =
      .ok m)
    (hd : m.hasScript event = true) :
    (g.isOptional idx = true →
      (runScriptNode w g opts pd event idx).result = .ok () ∧
      (runNodes w g opts pd event (idx :: rest)).result =
        (runNodes w g opts pd event rest).result) ∧
    (g.isOptional idx = false →
      (∀ e, w.spawnScript (pkgDirIn g opts pd idx).1
          (pkgDirIn g opts pd idx).2 event = .error e →
        (runNodes w g opts pd event (idx :: rest)).result =
          .error (.scriptError e) ∧
        (runNodes w g opts pd event (idx :: rest)).spawns = [(idx, event)] ∧
        (runNodes w g opts pd event (idx :: rest)).reads =
          [(pkgDirIn g opts pd idx).1 ++ "/package.json"]) ∧
      (∀ e, w.spawnScript (pkgDirIn g opts pd idx).1
          (pkgDirIn g opts pd idx).2 event = .ok () →
        w.scriptExec (pkgDirIn g opts pd idx).1 event = .error e →
        (runNodes w g opts pd event (idx :: rest)).result = .error e ∧
        (runNodes w g opts pd event (idx :: rest)).spawns = [(idx, event)] ∧
        (runNodes w g opts pd event (idx :: rest)).reads =
          [(pkgDirIn g opts pd idx).1 ++ "/package.json"])) := by
  constructor
  · intro ho
    have hn : (runScriptNode w g opts pd event idx).result = .ok () := by
      cases hs : w.spawnScript (pkgDirIn g opts pd idx).1
          (pkgDirIn g opts pd idx).2 event with
      | error e => simp [runScriptNode, hm, hd, hs, ho]
      | ok u =>
        cases hx : w.scriptExec (pkgDirIn g opts pd idx).1 event with
        | error e => simp [runScriptNode, hm, hd, hs, hx, ho]
        | ok v => simp [runScriptNode, hm, hd, hs, hx]
    exact ⟨hn, by simp [runNodes, hn]⟩
  · intro ho
    constructor
    · intro e hs
      have hres : (runScriptNode w g opts pd event idx).result =
          .error (.scriptError e) := by
        simp [runScriptNode, hm, hd, hs, ho]
      have hsp : (runScriptNode w g opts pd event idx).spawns =
          [(idx, event)] := by
        simp [runScriptNode, hm, hd, hs, ho]
      have hrd := runScriptNode_reads w g opts pd event idx
      refine ⟨?_, ?_, ?_⟩ <;> simp [runNodes, hres, hsp, hrd]
    · intro e hs hx
      have hres : (runScriptNode w g opts pd event idx).result = .error e := by
        simp [runScriptNode, hm, hd, hs, hx, ho]
      have hsp : (runScriptNode w g opts pd event idx).spawns =
          [(idx, event)] := by
        simp [runScriptNode, hm, hd, hs, hx, ho]
      have hrd := runScriptNode_reads w g opts pd event idx
      refine ⟨?_, ?_, ?_⟩ <;> simp [runNodes, hres, hsp, hrd]

/-- Fixture for C2: a world whose manifests declare an install script and
whose script spawns all fail. -/
def w2fix : World :=
  ⟨fun _ => .ok ⟨[("install", "node-gyp rebuild")]⟩,
    fun _ _ _ => .error "ENOENT", fun _ _ => .ok (), fun _ _ => []⟩

/-- Fixture for C2: a graph in which every node is optional. -/
def g2fix : Graph := ⟨9, fun _ => true, fun _ => "leftpad"⟩

/-- Fixture for C2: linker options with no callbacks configured. -/
def opts2fix : LinkerOptions :=
  ⟨4, false, 2, none, false, false, "/proj", false, false, false, false⟩

/-- Fixture for C2: a package-dir mapping. -/
def pd2fix : Nat → String × String :=
  fun i => ("/proj/node_modules/p" ++ toString i, "/proj")

/-- Witness for C2: an optional node whose spawn fails is treated as
successful and the pass over the remaining nodes continues. -/
theorem run_scripts_optional_isolation_witness :
    (runScriptNode w2fix g2fix opts2fix pd2fix "install" 0).result =
      .ok () ∧
    (runNodes w2fix g2fix opts2fix pd2fix "install" (0 :: [1])).result =
      (runNodes w2fix g2fix opts2fix pd2fix "install" [1]).result :=
  (run_scripts_optional_isolation w2fix g2fix opts2fix pd2fix "install" 0 [1]
    ⟨[("install", "node-gyp rebuild")]⟩ rfl rfl).1 rfl

/-- Fixture for C3: a graph in which every node is optional. -/
def g3fix : Graph := ⟨9, fun _ => true, fun _ => "optpkg"⟩

/-- Fixture for C3: linker options rooted at /proj. -/
def opts3fix : LinkerOptions :=
  ⟨4, false, 2, none, false, false, "/proj", false, false, false, false⟩

/-- Fixture for C3: an isolated-linker state with node 0 pending. -/
def st3fix : LinkerState :=
  ⟨[0], opts3fix, fun _ => ("d0", "/proj"), .ok 0, .ok 0, .ok 0⟩

/-- Fixture for C3: a world in which every manifest read fails. -/
def w3fix : World :=
  ⟨fun _ => .error "ENOENT", fun _ _ _ => .ok (), fun _ _ => .ok (),
    fun _ _ => []⟩

/-- Counterexample to C3: node 0 is optional, yet its Build-Manifest read
failure makes run_scripts return an error — a failure attributable to an
optional node that is not swallowed. -/
theorem run_scripts_optional_manifest_cx :
    g3fix.isOptional 0 = true ∧
    (runScriptsS (.isolated st3fix) w3fix g3fix "install").1.result =
      .error (.buildManifestReadError "d0/package.json" "ENOENT") := by
  exact ⟨rfl, rfl⟩

/-- C3 (amended): for an optional node, spawn and execution failures are
swallowed — once its manifest read succeeds the node's step always yields
Ok — but a Build-Manifest read failure is propagated as
BuildManifestReadError even for an optional node. -/
theorem run_scripts_optional_swallow_amended (w : World) (g : Graph)
    (opts : LinkerOptions) (pd : Nat → String × String) (event : String)
    (idx : Nat) (ho : g.isOptional idx = true) :
    (∀ c, w.readManifest ((pkgDirIn g opts pd idx).1 ++ "/package.json") =
        .error c →
      (runScriptNode w g opts pd event idx).result =
        .error (.buildManifestReadError
          ((pkgDirIn g opts pd idx).1 ++ "/package.json") c)) ∧
    (∀ m, w.readManifest ((pkgDirIn g opts pd idx).1 ++ "/package.json") =
        .ok m →
      (runScriptNode w g opts pd event idx).result = .ok ()) := by
  constructor
  · intro c hc
    simp [runScriptNode, hc]
  · intro m hmani
    cases hd : m.hasScript event with
    | false => simp [runScriptNode, hmani, hd]
    | true =>
      cases hs : w.spawnScript (pkgDirIn g opts pd idx).1
          (pkgDirIn g opts pd idx).2 event with
      | error e => simp [runScriptNode, hmani, hd, hs, ho]
      | ok u =>
        cases hx : w.scriptExec (pkgDirIn g opts pd idx).1 event <;>
          simp [runScriptNode, hmani, hd, hs, hx, ho]

/-- Witness for the amended C3: at the concrete optional node whose manifest
read fails, the step's result is the propagated BuildManifestReadError. -/
theorem run_scripts_optional_swallow_amended_witness :
    (runScriptNode w3fix g3fix opts3fix st3fix.pkgDirOf "install" 0).result =
      .error (.buildManifestReadError "d0/package.json" "ENOENT") :=
  (run_scripts_optional_swallow_amended w3fix g3fix opts3fix st3fix.pkgDirOf
    "install" 0 rfl).1 "ENOENT" rfl

/-- Fixture for C4: a world in which every manifest declares an install
script and all spawns and executions succeed. -/
def w4fix : World :=
  ⟨fun _ => .ok ⟨[("install", "make")]⟩, fun _ _ _ => .ok (),
    fun _ _ => .ok (), fun _ _ => []⟩

/-- Fixture for C4: linker options rooted at /proj. -/
def opts4fix : LinkerOptions :=
  ⟨4, false, 2, none, false, false, "/proj", false, false, false, false⟩

/-- Fixture for C4: an isolated-linker state with node 0 pending. -/
def st4fix : LinkerState :=
  ⟨[0], opts4fix, fun i => ("/proj/node_modules/p" ++ toString i, "/proj"),
    .ok 0, .ok 0, .ok 0⟩

/-- Fixture for C4: a graph with no optional nodes. -/
def g4fix : Graph := ⟨9, fun _ => false, fun _ => "pkg"⟩

/-- Counterexample to C4: node 0's lifecycle work for the event completes
successfully, yet after the run_scripts call the Pending-Rebuild Set still
contains node 0 — completed nodes are not removed (consumed) from the set. -/
theorem pending_set_not_consumed_cx :
    (runScriptsS (.isolated st4fix) w4fix g4fix "install").1.result =
      .ok () ∧
    (runScriptsS (.isolated st4fix) w4fix g4fix "install").2.pending =
      [0] := by
  exact ⟨rfl, rfl⟩

/-- A fully successful pass reads the manifest of every snapshotted pending
node, in order. -/
theorem runNodes_ok_reads (w : World) (g : Graph) (opts : LinkerOptions)
    (pd : Nat → String × String) (e : String) (xs : List Nat)
    (h : (runNodes w g opts pd e xs).result = .ok ()) :
    (runNodes w g opts pd e xs).reads =
      xs.map (fun i => (pkgDirIn g opts pd i).1 ++ "/package.json") := by
  revert h
  induction xs with
  | nil => intro h; rfl
  | cons idx rest ih =>
    intro h
    cases hn : (runScriptNode w g opts pd e idx).result with
    | error e' => simp [runNodes, hn] at h
    | ok u =>
      have h' : (runNodes w g opts pd e rest).result = .ok () := by
        simpa [runNodes, hn] using h
      simp [runNodes, hn, runScriptNode_reads, ih h']

/-- C4 (amended): run_scripts operates on the snapshot of the
Pending-Rebuild Set taken at the start of the call — on a fully successful
pass it processes exactly the snapshotted node indices, in order — but it
does not consume the set: the linker state after the call is exactly the
state before it. -/
theorem run_scripts_snapshot_amended (l : Linker) (w : World) (g : Graph)
    (e : String) :
    (runScriptsS l w g e).2 = l ∧
    ((runScriptsS l w g e).1.result = .ok () →
      (runScriptsS l w g e).1.reads = l.maniPaths g) := by
  cases l with
  | null => exact ⟨rfl, fun _ => rfl⟩
  | isolated st =>
    exact ⟨rfl, fun h =>
      runNodes_ok_reads w g st.opts st.pkgDirOf e st.pendingRebuild h⟩
  | hoisted st =>
    exact ⟨rfl, fun h =>
      runNodes_ok_reads w g st.opts st.pkgDirOf e st.pendingRebuild h⟩

/-- Witness for the amended C4: on the concrete all-successful pass, the
reads are exactly the manifest paths of the snapshotted pending set. -/
theorem run_scripts_snapshot_amended_witness :
    (runScriptsS (.isolated st4fix) w4fix g4fix "install").1.reads =
      (Linker.isolated st4fix).maniPaths g4fix :=
  (run_scripts_snapshot_amended (.isolated st4fix) w4fix g4fix "install").2
    rfl

/-- Fixture for C6: all filesystem operations succeed; the parent of the
filesystem root path is None (as for Rust's Path::parent). -/
def env6fix : LinkBinEnv :=
  ⟨.ok (), .ok (), .ok (),
    fun p => if p = "/" then none else some "/parent",
    fun _ _ => some "../pkg/bin.js"⟩

/-- Fixture for C6: the source executable exists with mode 0o644. -/
def st6fix : FsState := ⟨[("/proj/node_modules/pkg/bin.js", 0o644)], []⟩

/-- Counterexample to C6: calling link_bin with a target path that has no
parent directory terminates abnormally (the unwrap on Path::parent panics)
instead of returning a typed error. -/
theorem link_bin_no_parent_panic_cx :
    (link_bin env6fix "/proj/node_modules/pkg/bin.js" "/" st6fix).1 =
      .panicked := by
  rfl

/-- C6 (amended): link_bin surfaces the source-metadata failure, the
permission-bit write failure and the symlink-creation failure (including
target already exists) as typed errors returned to the caller; however, when
the target path has no parent directory, or no relative path from the
target's parent to the source can be computed, it terminates abnormally
(panics on unwrap) instead of returning a typed error. -/
theorem link_bin_error_surface_amended (env : LinkBinEnv) (fp tp : String)
    (st : FsState) :
    (∀ e, env.metadataResult = .error e →
      link_bin env fp tp st = (.err (.ioError e), st)) ∧
    (∀ e, env.metadataResult = .ok () → env.setPermsResult = .error e →
      link_bin env fp tp st = (.err (.ioError e), st)) ∧
    (env.metadataResult = .ok () → env.setPermsResult = .ok () →
      env.parentOf tp = none →
      (link_bin env fp tp st).1 = .panicked) ∧
    (∀ p, env.metadataResult = .ok () → env.setPermsResult = .ok () →
      env.parentOf tp = some p → env.diffPaths fp p = none →
      (link_bin env fp tp st).1 = .panicked) ∧
    (∀ p r e, env.metadataResult = .ok () → env.setPermsResult = .ok () →
      env.parentOf tp = some p → env.diffPaths fp p = some r →
      env.symlinkResult = .error e →
      (link_bin env fp tp st).1 = .err (.ioError e)) := by
  refine ⟨?_, ?_, ?_, ?_, ?_⟩
  · intro e h1
    simp [link_bin, h1]
  · intro e h1 h2
    simp [link_bin, h1, h2]
  · intro h1 h2 h3
    simp [link_bin, h1, h2, h3]
  · intro p h1 h2 h3 h4
    simp [link_bin, h1, h2, h3, h4]
  · intro p r e h1 h2 h3 h4 h5
    simp [link_bin, h1, h2, h3, h4, h5]

/-- Fixture for the amended C6: symlink creation fails (target exists). -/
def env6bfix : LinkBinEnv :=
  ⟨.ok (), .ok (), .error "EEXIST",
    fun _ => some "/proj/node_modules/.bin",
    fun _ _ => some "../pkg/bin.js"⟩

/-- Witness for the amended C6: the concrete symlink-creation failure is
returned as a typed error. -/
theorem link_bin_error_surface_amended_witness :
    (link_bin env6bfix "/proj/node_modules/pkg/bin.js"
      "/proj/node_modules/.bin/pkg" st6fix).1 = .err (.ioError "EEXIST") :=
  (link_bin_error_surface_amended env6bfix "/proj/node_modules/pkg/bin.js"
    "/proj/node_modules/.bin/pkg" st6fix).2.2.2.2
    "/proj/node_modules/.bin" "../pkg/bin.js" "EEXIST" rfl rfl rfl rfl rfl

/-- C7: on POSIX, a successful link_bin call sets the source file's
permission bits to mode 0o755, computes the relative path from the target's
parent directory to the source (Path::parent on the target, then
pathdiff::diff_paths of source against that parent), and creates a symbolic
link at the target pointing to exactly that relative path. -/
theorem link_bin_posix_success (env : LinkBinEnv) (fp tp : String)
    (st : FsState) (p r : String)
    (h1 : env.metadataResult = .ok ()) (h2 : env.setPermsResult = .ok ())
    (h3 : env.parentOf tp = some p) (h4 : env.diffPaths fp p = some r)
    (h5 : env.symlinkResult = .ok ()) :
    (link_bin env fp tp st).1 = .ok ∧
    lookupAssoc (link_bin env fp tp st).2.perms fp = some 0o755 ∧
    (link_bin env fp tp st).2.symlinks = (tp, r) :: st.symlinks := by
  refine ⟨?_, ?_, ?_⟩ <;>
    simp [link_bin, h1, h2, h3, h4, h5, lookupAssoc_setAssoc]

/-- Fixture for C7: every operation succeeds. -/
def env7fix : LinkBinEnv :=
  ⟨.ok (), .ok (), .ok (),
    fun _ => some "/proj/node_modules/.bin",
    fun _ _ => some "../pkg/bin.js"⟩

/-- Fixture for C7: the source executable exists with mode 0o644. -/
def st7fix : FsState := ⟨[("/proj/node_modules/pkg/bin.js", 0o644)], []⟩

/-- Witness for C7: the concrete successful call returns Ok, the source's
bits become 0o755, and the symlink at the target points to the relative
path. -/
theorem link_bin_posix_success_witness :
    (link_bin env7fix "/proj/node_modules/pkg/bin.js"
      "/proj/node_modules/.bin/pkg" st7fix).1 = .ok ∧
    lookupAssoc (link_bin env7fix "/proj/node_modules/pkg/bin.js"
      "/proj/node_modules/.bin/pkg" st7fix).2.perms
      "/proj/node_modules/pkg/bin.js" = some 0o755 ∧
    (link_bin env7fix "/proj/node_modules/pkg/bin.js"
      "/proj/node_modules/.bin/pkg" st7fix).2.symlinks =
      [("/proj/node_modules/.bin/pkg", "../pkg/bin.js")] :=
  link_bin_posix_success env7fix "/proj/node_modules/pkg/bin.js"
    "/proj/node_modules/.bin/pkg" st7fix "/proj/node_modules/.bin"
    "../pkg/bin.js" rfl rfl rfl rfl rfl

/-- C10: link_bin is not atomic on failure: the source's permission bits are
set to 0o755 before the symlink is attempted, so when symlink creation fails
(for example because the target already exists) the call returns an error,
no symlink is created, and the source's permission bits remain 0o755 — the
pre-call bits are not restored. -/
theorem link_bin_perms_persist_on_failure (env : LinkBinEnv)
    (fp tp : String) (st : FsState) (p r : String) (e : String)
    (h1 : env.metadataResult = .ok ()) (h2 : env.setPermsResult = .ok ())
    (h3 : env.parentOf tp = some p) (h4 : env.diffPaths fp p = some r)
    (h5 : env.symlinkResult = .error e)
    (h6 : lookupAssoc st.perms fp ≠ some 0o755) :
    (link_bin env fp tp st).1 = .err (.ioError e) ∧
    lookupAssoc (link_bin env fp tp st).2.perms fp = some 0o755 ∧
    lookupAssoc (link_bin env fp tp st).2.perms fp ≠
      lookupAssoc st.perms fp ∧
    (link_bin env fp tp st).2.symlinks = st.symlinks := by
  have hperm : lookupAssoc (link_bin env fp tp st).2.perms fp =
      some 0o755 := by
    simp [link_bin, h1, h2, h3, h4, h5, lookupAssoc_setAssoc]
  refine ⟨?_, hperm, ?_, ?_⟩
  · simp [link_bin, h1, h2, h3, h4, h5]
  · rw [hperm]
    intro hc
    exact h6 hc.symm
  · simp [link_bin, h1, h2, h3, h4, h5]

/-- Fixture for C10: symlink creation fails with target-exists. -/
def env10fix : LinkBinEnv :=
  ⟨.ok (), .ok (), .error "EEXIST",
    fun _ => some "/proj/node_modules/.bin",
    fun _ _ => some "../pkg/bin.js"⟩

/-- Fixture for C10: the source starts with mode 0o644. -/
def st10fix : FsState := ⟨[("/proj/node_modules/pkg/bin.js", 0o644)], []⟩

/-- Witness for C10: at the concrete failing call, the error is returned
while the source's permission bits are left changed to 0o755. -/
theorem link_bin_perms_persist_on_failure_witness :
    (link_bin env10fix "/proj/node_modules/pkg/bin.js"
      "/proj/node_modules/.bin/pkg" st10fix).1 =
      .err (.ioError "EEXIST") ∧
    lookupAssoc (link_bin env10fix "/proj/node_modules/pkg/bin.js"
      "/proj/node_modules/.bin/pkg" st10fix).2.perms
      "/proj/node_modules/pkg/bin.js" = some 0o755 ∧
    lookupAssoc (link_bin env10fix "/proj/node_modules/pkg/bin.js"
      "/proj/node_modules/.bin/pkg" st10fix).2.perms
      "/proj/node_modules/pkg/bin.js" ≠
      lookupAssoc st10fix.perms "/proj/node_modules/pkg/bin.js" ∧
    (link_bin env10fix "/proj/node_modules/pkg/bin.js"
      "/proj/node_modules/.bin/pkg" st10fix).2.symlinks =
      st10fix.symlinks :=
  link_bin_perms_persist_on_failure env10fix
    "/proj/node_modules/pkg/bin.js" "/proj/node_modules/.bin/pkg" st10fix
    "/proj/node_modules/.bin" "../pkg/bin.js" "EEXIST"
    rfl rfl rfl rfl rfl (by decide)

/-- Changing the callback flags changes nothing a node-level step computes
except its callback log: the manifest read, the spawn attempt and the result
are identical. -/
theorem runScriptNode_callbacks (w : World) (g : Graph)
    (opts : LinkerOptions) (pd : Nat → String × String) (e : String)
    (idx : Nat) (a b c d : Bool) :
    (runScriptNode w g (withCallbacks opts a b c d) pd e idx).reads =
      (runScriptNode w g opts pd e idx).reads ∧
    (runScriptNode w g (withCallbacks opts a b c d) pd e idx).spawns =
      (runScriptNode w g opts pd e idx).spawns ∧
    (runScriptNode w g (withCallbacks opts a b c d) pd e idx).result =
      (runScriptNode w g opts pd e idx).result := by
  have hp : pkgDirIn g (withCallbacks opts a b c d) pd idx =
      pkgDirIn g opts pd idx := rfl
  cases hm : w.readManifest ((pkgDirIn g opts pd idx).1 ++ "/package.json")
      with
  | error er => refine ⟨?_, ?_, ?_⟩ <;> simp [runScriptNode, hp, hm]
  | ok m =>
    cases hd : m.hasScript e with
    | false => refine ⟨?_, ?_, ?_⟩ <;> simp [runScriptNode, hp, hm, hd]
    | true =>
      cases hs : w.spawnScript (pkgDirIn g opts pd idx).1
          (pkgDirIn g opts pd idx).2 e with
      | error er =>
        cases ho : g.isOptional idx <;>
          (refine ⟨?_, ?_, ?_⟩ <;> simp [runScriptNode, hp, hm, hd, hs, ho])
      | ok u =>
        cases hx : w.scriptExec (pkgDirIn g opts pd idx).1 e with
        | error er =>
          cases ho : g.isOptional idx <;>
            (refine ⟨?_, ?_, ?_⟩ <;>
              simp [runScriptNode, hp, hm, hd, hs, hx, ho])
        | ok v =>
          refine ⟨?_, ?_, ?_⟩ <;> simp [runScriptNode, hp, hm, hd, hs, hx]

/-- Changing the callback flags changes nothing a whole pass computes except
its callback log. -/
theorem runNodes_callbacks (w : World) (g : Graph) (opts : LinkerOptions)
    (pd : Nat → String × String) (e : String) (a b c d : Bool)
    (xs : List Nat) :
    (runNodes w g (withCallbacks opts a b c d) pd e xs).reads =
      (runNodes w g opts pd e xs).reads ∧
    (runNodes w g (withCallbacks opts a b c d) pd e xs).spawns =
      (runNodes w g opts pd e xs).spawns ∧
    (runNodes w g (withCallbacks opts a b c d) pd e xs).result =
      (runNodes w g opts pd e xs).result := by
  induction xs with
  | nil => exact ⟨rfl, rfl, rfl⟩
  | cons idx rest ih =>
    obtain ⟨hr, hs, hres⟩ := runScriptNode_callbacks w g opts pd e idx a b c d
    obtain ⟨ihr, ihs, ihres⟩ := ih
    cases hn : (runScriptNode w g opts pd e idx).result with
    | error er =>
      have hn' : (runScriptNode w g (withCallbacks opts a b c d) pd e
          idx).result = .error er := by rw [hres, hn]
      refine ⟨?_, ?_, ?_⟩ <;> simp [runNodes, hn, hn', hr, hs]
    | ok u =>
      have hn' : (runScriptNode w g (withCallbacks opts a b c d) pd e
          idx).result = .ok u := by rw [hres, hn]
      refine ⟨?_, ?_, ?_⟩ <;>
        simp [runNodes, hn, hn', hr, hs, ihr, ihs, ihres]

/-- Changing the callback flags of a linker changes nothing `run_scripts`
computes except its callback log, and leaves the pending set it hands back
unchanged. -/
theorem runScriptsS_callbacks (l : Linker) (w : World) (g : Graph)
    (e : String) (a b c d : Bool) :
    (runScriptsS (setCallbacks l a b c d) w g e).1.reads =
      (runScriptsS l w g e).1.reads ∧
    (runScriptsS (setCallbacks l a b c d) w g e).1.spawns =
      (runScriptsS l w g e).1.spawns ∧
    (runScriptsS (setCallbacks l a b c d) w g e).1.result =
      (runScriptsS l w g e).1.result ∧
    (runScriptsS (setCallbacks l a b c d) w g e).2.pending =
      (runScriptsS l w g e).2.pending := by
  cases l with
  | null => exact ⟨rfl, rfl, rfl, rfl⟩
  | isolated st =>
    obtain ⟨hr, hs, hres⟩ :=
      runNodes_callbacks w g st.opts st.pkgDirOf e a b c d st.pendingRebuild
    exact ⟨hr, hs, hres, rfl⟩
  | hoisted st =>
    obtain ⟨hr, hs, hres⟩ :=
      runNodes_callbacks w g st.opts st.pkgDirOf e a b c d st.pendingRebuild
    exact ⟨hr, hs, hres, rfl⟩

/-- Changing the callback flags does not change what `link_bins`
delegates to. -/
theorem linkBins_setCallbacks (l : Linker) (g : Graph) (a b c d : Bool) :
    (setCallbacks l a b c d).linkBins g = l.linkBins g := by
  cases l <;> rfl

/-- C9: the optional observer callbacks are observational only: with the
four callback flags set arbitrarily, run_scripts produces the same manifest
reads, the same script spawns, the same result and the same pending set, and
rebuild executes the same steps with the same reads, spawns and result, as
with the original flags. -/
theorem callbacks_observational (l : Linker) (w : World) (g : Graph)
    (e : String) (a b c d : Bool) (ig : Bool) :
    (runScriptsS (setCallbacks l a b c d) w g e).1.reads =
      (runScriptsS l w g e).1.reads ∧
    (runScriptsS (setCallbacks l a b c d) w g e).1.spawns =
      (runScriptsS l w g e).1.spawns ∧
    (runScriptsS (setCallbacks l a b c d) w g e).1.result =
      (runScriptsS l w g e).1.result ∧
    (runScriptsS (setCallbacks l a b c d) w g e).2.pending =
      (runScriptsS l w g e).2.pending ∧
    (rebuildT (setCallbacks l a b c d) w g ig).steps =
      (rebuildT l w g ig).steps ∧
    (rebuildT (setCallbacks l a b c d) w g ig).reads =
      (rebuildT l w g ig).reads ∧
    (rebuildT (setCallbacks l a b c d) w g ig).spawns =
      (rebuildT l w g ig).spawns ∧
    (rebuildT (setCallbacks l a b c d) w g ig).result =
      (rebuildT l w g ig).result := by
  obtain ⟨h1, h2, h3, h4⟩ := runScriptsS_callbacks l w g e a b c d
  obtain ⟨p1, p2, p3, _⟩ := runScriptsS_callbacks l w g "preinstall" a b c d
  obtain ⟨i1, i2, i3, _⟩ := runScriptsS_callbacks l w g "install" a b c d
  obtain ⟨q1, q2, q3, _⟩ := runScriptsS_callbacks l w g "postinstall" a b c d
  have hb := linkBins_setCallbacks l g a b c d
  refine ⟨h1, h2, h3, h4, ?_⟩
  cases ig with
  | true =>
    cases hbb : l.linkBins g <;>
      (refine ⟨?_, ?_, ?_, ?_⟩ <;> simp [rebuildT, hb, hbb])
  | false =>
    cases hp : (runScriptsS l w g "preinstall").1.result with
    | error er =>
      have hp' : (runScriptsS (setCallbacks l a b c d) w g
          "preinstall").1.result = .error er := by rw [p3, hp]
      refine ⟨?_, ?_, ?_, ?_⟩ <;> simp [rebuildT, hp, hp', p1, p2]
    | ok u =>
      have hp' : (runScriptsS (setCallbacks l a b c d) w g
          "preinstall").1.result = .ok u := by rw [p3, hp]
      cases hbb : l.linkBins g with
      | error er =>
        refine ⟨?_, ?_, ?_, ?_⟩ <;>
          simp [rebuildT, hp, hp', hb, hbb, p1, p2]
      | ok n =>
        cases hi : (runScriptsS l w g "install").1.result with
        | error er =>
          have hi' : (runScriptsS (setCallbacks l a b c d) w g
              "install").1.result = .error er := by rw [i3, hi]
          refine ⟨?_, ?_, ?_, ?_⟩ <;>
            simp [rebuildT, hp, hp', hb, hbb, hi, hi', p1, p2, i1, i2]
        | ok u2 =>
          have hi' : (runScriptsS (setCallbacks l a b c d) w g
              "install").1.result = .ok u2 := by rw [i3, hi]
          refine ⟨?_, ?_, ?_, ?_⟩ <;>
            simp [rebuildT, hp, hp', hb, hbb, hi, hi', p1, p2, i1, i2,
              q1, q2, q3]

end Orogene
